import Mathlib

/-!
Shallow embedding of `nova/virt/disk/mount/api.py` (class `Mount`), the
device-mount lifecycle manager.  Pure state is the attribute set of a
`Mount` object; the external world (filesystem `os.path.exists` queries and
external command results) is supplied through explicit environment records,
one field per observation point in program order.  Each operation returns
the new state together with the list of external commands it invoked, and
(for operations that can raise) an outcome marker distinguishing normal
boolean return from a propagating Python exception.
-/

namespace NovaMount

/-- The `partition` attribute: `None`, an integer (`-1` means auto-search),
or a string (as produced by `reset_dev`'s `rsplit`). -/
inductive PartSel where
  | none
  | int (n : Int)
  | str (s : String)
  deriving DecidableEq, Repr

/-- Python truthiness of the `partition` attribute. -/
def PartSel.truthy : PartSel → Bool
  | .none => false
  | .int n => n != 0
  | .str s => s != ""

/-- Python `str()` of the partition value, as used in `'%s' %` formatting. -/
def PartSel.pstr : PartSel → String
  | .none => "None"
  | .int n => toString n
  | .str s => s

/-- Python `str()` of an optional string (`None` renders as `"None"`). -/
def pyStrOpt : Option String → String
  | Option.none => "None"
  | Option.some s => s

/-- `os.path.isabs`: the path starts with `/`. -/
def isabs (p : String) : Bool :=
  match p.data with
  | [] => false
  | c :: _ => c = '/'

/-- Python `s.startswith(pre)`. -/
def strStartsWith (s pre : String) : Bool := pre.data.isPrefixOf s.data

/-- Split a character list on a separator character. -/
def splitOnChar (c : Char) : List Char → List (List Char)
  | [] => [[]]
  | x :: xs =>
    let r := splitOnChar c xs
    if x = c then [] :: r
    else
      match r with
      | [] => [[x]]
      | h :: t => (x :: h) :: t

/-- `os.path.basename`: the substring after the last `/`. -/
def basename (p : String) : String :=
  String.mk ((splitOnChar '/' p.data).getLastD [])

/-- Split a character list at the LAST occurrence of `c`
(the behaviour of Python `s.rsplit(c, 1)` when `c` occurs). -/
def rsplitLast (c : Char) : List Char → Option (List Char × List Char)
  | [] => Option.none
  | x :: xs =>
    match rsplitLast c xs with
    | Option.some (a, b) => Option.some (x :: a, b)
    | Option.none => if x = c then Option.some ([], xs) else Option.none

/-- Python `s.rsplit('p', 1)` unpacked into two variables: `none` models the
`ValueError` raised when `'p'` does not occur. -/
def rsplitP (s : String) : Option (String × String) :=
  (rsplitLast 'p' s.toList).map (fun ab => (String.mk ab.1, String.mk ab.2))

/-- `os.path.join '/dev' d` for the basename fragment produced by `rsplit`. -/
def joinDev (d : String) : String :=
  if isabs d then d else "/dev/" ++ d

/-- External commands the class can invoke through `utils.trycmd` /
`utils.execute`. -/
inductive Cmd where
  | kpartx_add (dev : String)
  | kpartx_del (dev : String)
  | mount (dev : String) (dir : String)
  | umount (dev : String)
  deriving DecidableEq, Repr

/-- Outcome of an operation: a normal boolean return, or a propagating
Python exception (failed `assert`, `TypeError`, ...). -/
inductive OpOut where
  | ok (b : Bool)
  | exc
  deriving DecidableEq, Repr

/-- The mutable attributes of a `Mount` object. -/
structure MountState where
  image : String
  partition : PartSel
  mount_dir : String
  error : String
  linked : Bool
  mapped : Bool
  mounted : Bool
  automapped : Bool
  device : Option String
  mapped_device : Option String
  mode : Option String
  deriving DecidableEq, Repr

/-- Environment of `reset_dev`: the one `os.path.exists` query on the
device hint. -/
structure ResetEnv where
  hintExists : Bool
  deriving DecidableEq, Repr

/-- `Mount.reset_dev`: `none` models the `ValueError` raised by the
two-variable unpack of `rsplit` when the basename contains no `p`. -/
def reset_dev (e : ResetEnv) (s : MountState) : Option MountState :=
  match s.device with
  | Option.none => Option.some s
  | Option.some d =>
    if d = "" then Option.some s
    else
      let s := { s with linked := true, mapped := true, mounted := true }
      if isabs d && e.hintExists then
        if strStartsWith d "/dev/mapper/" then
          match rsplitP (basename d) with
          | Option.none => Option.none
          | Option.some (dev, part) =>
            Option.some { s with device := Option.some (joinDev dev),
                                 partition := PartSel.str part }
        else Option.some s
      else Option.some s

/-- `Mount.__init__`: set the attributes, then call `reset_dev`. -/
def init (image mount_dir : String) (partition : PartSel)
    (device : Option String) (e : ResetEnv) : Option MountState :=
  reset_dev e
    { image := image, partition := partition, mount_dir := mount_dir,
      error := "", linked := false, mapped := false, mounted := false,
      automapped := false, device := device, mapped_device := device,
      mode := Option.none }

/-- Base-class `Mount.get_dev`: sets `device = None`, `linked = True`,
returns `True`. -/
def get_dev (s : MountState) : OpOut × MountState × List Cmd :=
  (OpOut.ok true, { s with device := Option.none, linked := true }, [])

/-- `Mount.unget_dev`. -/
def unget_dev (s : MountState) : MountState :=
  { s with linked := false }

/-- Environment of one `map_dev` call: each field is one observation of the
external world, in program order (`os.path.exists` answers and the stderr
text returned by the `kpartx -a` invocation). -/
structure MapEnv where
  deviceExists : Bool
  autoExists : Bool
  mapExistsBefore : Bool
  kpartxErr : String
  mapExistsAfter : Bool
  deriving DecidableEq, Repr

/-- `Mount.map_dev`.  `OpOut.exc` covers the `TypeError` on a `None` device
and the two `assert` failures; otherwise the returned boolean is
`self.mapped`. -/
def map_dev (e : MapEnv) (s : MountState) : OpOut × MountState × List Cmd :=
  match s.device with
  | Option.none => (OpOut.exc, s, [])
  | Option.some d =>
    if !e.deviceExists then (OpOut.exc, s, [])
    else
      let automapped_path := "/dev/" ++ basename d ++ "p" ++ s.partition.pstr
      if s.partition = PartSel.int (-1) then
        let s := { s with error :=
          "partition search unsupported with " ++ pyStrOpt s.mode }
        (OpOut.ok s.mapped, s, [])
      else if s.partition.truthy && !e.autoExists then
        let map_path := "/dev/mapper/" ++ basename d ++ "p" ++ s.partition.pstr
        if e.mapExistsBefore then (OpOut.exc, s, [])
        else
          let cmds := [Cmd.kpartx_add d]
          if !e.mapExistsAfter then
            let err := if e.kpartxErr = "" then
                "partition " ++ s.partition.pstr ++ " not found"
              else e.kpartxErr
            let s := { s with error := "Failed to map partitions: " ++ err }
            (OpOut.ok s.mapped, s, cmds)
          else
            (OpOut.ok true,
             { s with mapped_device := Option.some map_path, mapped := true },
             cmds)
      else if s.partition.truthy && e.autoExists then
        (OpOut.ok true,
         { s with mapped_device := Option.some automapped_path,
                  mapped := true, automapped := true }, [])
      else
        (OpOut.ok true,
         { s with mapped_device := Option.some d, mapped := true }, [])

/-- `Mount.unmap_dev`. -/
def unmap_dev (s : MountState) : MountState × List Cmd :=
  if !s.mapped then (s, [])
  else
    let cmds := if s.partition.truthy && !s.automapped then
        [Cmd.kpartx_del (pyStrOpt s.device)]
      else []
    ({ s with mapped := false, automapped := false }, cmds)

/-- Environment of one `mnt_dev` call: the stderr text returned by the
`mount` invocation through `utils.trycmd`. -/
structure MntEnv where
  mountErr : String
  deriving DecidableEq, Repr

/-- `Mount.mnt_dev`. -/
def mnt_dev (e : MntEnv) (s : MountState) : Bool × MountState × List Cmd :=
  let cmds := [Cmd.mount (pyStrOpt s.mapped_device) s.mount_dir]
  if e.mountErr ≠ "" then
    (false, { s with error := "Failed to mount filesystem: " ++ e.mountErr },
     cmds)
  else
    (true, { s with mounted := true }, cmds)

/-- `Mount.unmnt_dev`. -/
def unmnt_dev (s : MountState) : MountState × List Cmd :=
  if !s.mounted then (s, [])
  else ({ s with mounted := false }, [Cmd.umount (pyStrOpt s.mapped_device)])

/-- `Mount.do_umount`: unmnt, unmap and unget, each guarded by its flag. -/
def do_umount (s : MountState) : MountState × List Cmd :=
  let (s1, t1) := if s.mounted then unmnt_dev s else (s, [])
  let (s2, t2) := if s1.mapped then unmap_dev s1 else (s1, [])
  let s3 := if s2.linked then unget_dev s2 else s2
  (s3, t1 ++ t2)

/-- A `get_dev` implementation: `do_mount` dispatches dynamically to the
subclass override, so the composite is parametric in it. -/
def GetDev : Type := MountState → OpOut × MountState × List Cmd

/-- `Mount.do_mount`: `status = get_dev() and map_dev() and mnt_dev()`
inside `try`, with `finally: if not status: do_umount()`.  An `exc`
outcome still runs the teardown before propagating. -/
def do_mount (gd : GetDev) (me : MapEnv) (ne : MntEnv) (s : MountState) :
    OpOut × MountState × List Cmd :=
  match gd s with
  | (OpOut.exc, s1, t1) =>
    let (s', t') := do_umount s1
    (OpOut.exc, s', t1 ++ t')
  | (OpOut.ok false, s1, t1) =>
    let (s', t') := do_umount s1
    (OpOut.ok false, s', t1 ++ t')
  | (OpOut.ok true, s1, t1) =>
    match map_dev me s1 with
    | (OpOut.exc, s2, t2) =>
      let (s', t') := do_umount s2
      (OpOut.exc, s', t1 ++ t2 ++ t')
    | (OpOut.ok false, s2, t2) =>
      let (s', t') := do_umount s2
      (OpOut.ok false, s', t1 ++ t2 ++ t')
    | (OpOut.ok true, s2, t2) =>
      match mnt_dev ne s2 with
      | (true, s3, t3) => (OpOut.ok true, s3, t1 ++ t2 ++ t3)
      | (false, s3, t3) =>
        let (s', t') := do_umount s3
        (OpOut.ok false, s', t1 ++ t2 ++ t3 ++ t')

/-- Environment of one backend attach: the `(out, err)` pair returned by
the attach command through `utils.trycmd`. -/
structure AttachEnv where
  out : String
  err : String
  deriving DecidableEq, Repr

/-- Modelled from the spec: the subclass `get_dev` overrides
(`LoopMount.get_dev` / `NbdMount.get_dev`, files `loop.py` / `nbd.py` are
not under `src/`): `Attach() -> (rawDevicePath, ok)`; on success sets
`deviceAttached=true` and `rawDevicePath`; fails (returns `False`, error
set) if the backend cannot produce a device. -/
def attach_get_dev (e : AttachEnv) : GetDev := fun s =>
  if e.err ≠ "" then
    (OpOut.ok false,
     { s with error := "Could not attach image to device: " ++ e.err }, [])
  else
    (OpOut.ok true,
     { s with device := Option.some e.out, linked := true }, [])

/-- The stage flags form a prefix: `mounted → mapped → linked`. -/
def flagsPrefixB (s : MountState) : Bool :=
  (!s.mounted || s.mapped) && (!s.mapped || s.linked)

/-- A freshly constructed session (no device hint). -/
def fresh : MountState :=
  { image := "img", partition := PartSel.none, mount_dir := "dir",
    error := "", linked := false, mapped := false, mounted := false,
    automapped := false, device := Option.none,
    mapped_device := Option.none, mode := Option.none }

/-! ## Helper lemmas -/

/-- Closed form of `do_umount`: the three stage flags are cleared,
`automapped` is cleared exactly when `unmap_dev` ran, every other
attribute is untouched, and the invoked commands are the guarded
`umount` and `kpartx -d`. -/
theorem do_umount_spec (s : MountState) :
    do_umount s =
      ({ s with mounted := false, mapped := false, linked := false,
                automapped := s.automapped && !s.mapped },
       (if s.mounted then [Cmd.umount (pyStrOpt s.mapped_device)] else []) ++
       (if s.mapped && (s.partition.truthy && !s.automapped) then
          [Cmd.kpartx_del (pyStrOpt s.device)] else [])) := by
  obtain ⟨img, p, dir, err, lk, mp, mt, am, dv, md, mo⟩ := s
  cases lk <;> cases mp <;> cases mt <;> cases am <;>
    simp [do_umount, unmnt_dev, unmap_dev, unget_dev]

theorem do_umount_flags (s : MountState) :
    (do_umount s).1.linked = false ∧ (do_umount s).1.mapped = false ∧
    (do_umount s).1.mounted = false := by
  rw [do_umount_spec]; exact ⟨rfl, rfl, rfl⟩

theorem do_umount_idem (s : MountState) :
    do_umount (do_umount s).1 = ((do_umount s).1, []) := by
  rw [do_umount_spec s, do_umount_spec]
  simp

/-- Either `do_mount` succeeds, or its final state is the result of a full
`do_umount` teardown. -/
theorem do_mount_teardown (gd : GetDev) (me : MapEnv) (ne : MntEnv)
    (s : MountState) :
    (do_mount gd me ne s).1 = OpOut.ok true ∨
    ∃ mid, (do_mount gd me ne s).2.1 = (do_umount mid).1 := by
  rcases hg : gd s with ⟨o1, s1, t1⟩
  cases o1 with
  | exc =>
    right
    refine ⟨s1, ?_⟩
    rcases hu : do_umount s1 with ⟨s', t'⟩
    simp [do_mount, hg, hu]
  | ok b1 =>
    cases b1 with
    | false =>
      right
      refine ⟨s1, ?_⟩
      rcases hu : do_umount s1 with ⟨s', t'⟩
      simp [do_mount, hg, hu]
    | true =>
      rcases hm : map_dev me s1 with ⟨o2, s2, t2⟩
      cases o2 with
      | exc =>
        right
        refine ⟨s2, ?_⟩
        rcases hu : do_umount s2 with ⟨s', t'⟩
        simp [do_mount, hg, hm, hu]
      | ok b2 =>
        cases b2 with
        | false =>
          right
          refine ⟨s2, ?_⟩
          rcases hu : do_umount s2 with ⟨s', t'⟩
          simp [do_mount, hg, hm, hu]
        | true =>
          rcases hn : mnt_dev ne s2 with ⟨b3, s3, t3⟩
          cases b3 with
          | false =>
            right
            refine ⟨s3, ?_⟩
            rcases hu : do_umount s3 with ⟨s', t'⟩
            simp [do_mount, hg, hm, hn, hu]
          | true =>
            left
            simp [do_mount, hg, hm, hn]

theorem str_append_ne_empty (a b : String) (h : a ≠ "") : a ++ b ≠ "" := by
  intro hc
  apply h
  apply String.ext
  have hd := congrArg String.data hc
  rw [String.data_append] at hd
  rw [show ("" : String).data = [] from rfl] at hd
  rw [(List.append_eq_nil.mp hd).1]

theorem do_umount_ord (s : MountState) :
    flagsPrefixB (do_umount s).1 = true := by
  rw [do_umount_spec]; rfl

theorem map_dev_linked (e : MapEnv) (s : MountState) :
    (map_dev e s).2.1.linked = s.linked := by
  rcases hd : s.device with _ | d
  · simp [map_dev, hd]
  · simp only [map_dev, hd]
    split_ifs <;> rfl

theorem map_dev_mapped_of_ok_true (e : MapEnv) (s : MountState)
    (h : (map_dev e s).1 = OpOut.ok true) :
    (map_dev e s).2.1.mapped = true := by
  rcases hd : s.device with _ | d
  · simp [map_dev, hd] at h
  · simp only [map_dev, hd] at h ⊢
    split_ifs at h ⊢ <;> simp_all

theorem map_dev_error_cases (e : MapEnv) (s : MountState) :
    (map_dev e s).2.1.error = s.error ∨
    (map_dev e s).2.1.error =
      "partition search unsupported with " ++ pyStrOpt s.mode ∨
    ∃ m, (map_dev e s).2.1.error = "Failed to map partitions: " ++ m := by
  rcases hd : s.device with _ | d
  · simp [map_dev, hd]
  · simp only [map_dev, hd]
    split_ifs <;> simp

theorem mnt_dev_linked_mapped (e : MntEnv) (s : MountState) :
    (mnt_dev e s).2.1.linked = s.linked ∧
    (mnt_dev e s).2.1.mapped = s.mapped := by
  by_cases h : e.mountErr = "" <;> simp [mnt_dev, h]

theorem mnt_dev_mounted_of_true (e : MntEnv) (s : MountState)
    (h : (mnt_dev e s).1 = true) : (mnt_dev e s).2.1.mounted = true := by
  by_cases hm : e.mountErr = ""
  · simp [mnt_dev, hm]
  · simp [mnt_dev, hm] at h

theorem attach_linked_of_ok_true (ae : AttachEnv) (s : MountState)
    (h : (attach_get_dev ae s).1 = OpOut.ok true) :
    (attach_get_dev ae s).2.1.linked = true := by
  by_cases he : ae.err = "" <;> simp [attach_get_dev, he] at h ⊢

/-- Every state produced by `__init__` has its three stage flags either all
false (no usable device hint) or all true (`reset_dev` marked the session
as previously attached). -/
theorem init_some_flags (image mount_dir : String) (p : PartSel)
    (dev : Option String) (e : ResetEnv) (s : MountState)
    (h : init image mount_dir p dev e = Option.some s) :
    (s.linked = false ∧ s.mapped = false ∧ s.mounted = false) ∨
    (s.linked = true ∧ s.mapped = true ∧ s.mounted = true) := by
  rcases dev with _ | d
  · left
    simp only [init, reset_dev] at h
    cases h
    exact ⟨rfl, rfl, rfl⟩
  · by_cases hd : d = ""
    · left
      subst hd
      simp only [init, reset_dev, if_pos rfl] at h
      cases h
      exact ⟨rfl, rfl, rfl⟩
    · right
      simp only [init, reset_dev, if_neg hd] at h
      split_ifs at h
      · rcases hr : rsplitP (basename d) with _ | ⟨dv, pt⟩ <;> rw [hr] at h
        · exact absurd h (by simp)
        · cases Option.some.inj h
          exact ⟨rfl, rfl, rfl⟩
      · cases Option.some.inj h
        exact ⟨rfl, rfl, rfl⟩
      · cases Option.some.inj h
        exact ⟨rfl, rfl, rfl⟩

theorem init_ord (image mount_dir : String) (p : PartSel)
    (dev : Option String) (e : ResetEnv) (s : MountState)
    (h : init image mount_dir p dev e = Option.some s) :
    flagsPrefixB s = true := by
  rcases init_some_flags image mount_dir p dev e s h with ⟨h1, h2, h3⟩ | ⟨h1, h2, h3⟩ <;>
    simp [flagsPrefixB, h1, h2, h3]

theorem do_mount_attach_ord (ae : AttachEnv) (me : MapEnv) (ne : MntEnv)
    (s : MountState) :
    flagsPrefixB (do_mount (attach_get_dev ae) me ne s).2.1 = true := by
  rcases hg : attach_get_dev ae s with ⟨o1, s1, t1⟩
  cases o1 with
  | exc =>
    have h2 : (do_mount (attach_get_dev ae) me ne s).2.1 = (do_umount s1).1 := by
      rcases hu : do_umount s1 with ⟨s', t'⟩
      simp [do_mount, hg, hu]
    rw [h2]; exact do_umount_ord s1
  | ok b1 =>
    cases b1 with
    | false =>
      have h2 : (do_mount (attach_get_dev ae) me ne s).2.1 = (do_umount s1).1 := by
        rcases hu : do_umount s1 with ⟨s', t'⟩
        simp [do_mount, hg, hu]
      rw [h2]; exact do_umount_ord s1
    | true =>
      have hl1 : s1.linked = true := by
        have := attach_linked_of_ok_true ae s (by rw [hg])
        rw [hg] at this
        exact this
      rcases hm : map_dev me s1 with ⟨o2, s2, t2⟩
      cases o2 with
      | exc =>
        have h2 : (do_mount (attach_get_dev ae) me ne s).2.1 =
            (do_umount s2).1 := by
          rcases hu : do_umount s2 with ⟨s', t'⟩
          simp [do_mount, hg, hm, hu]
        rw [h2]; exact do_umount_ord s2
      | ok b2 =>
        cases b2 with
        | false =>
          have h2 : (do_mount (attach_get_dev ae) me ne s).2.1 =
              (do_umount s2).1 := by
            rcases hu : do_umount s2 with ⟨s', t'⟩
            simp [do_mount, hg, hm, hu]
          rw [h2]; exact do_umount_ord s2
        | true =>
          have hl2 : s2.linked = true := by
            have := map_dev_linked me s1
            rw [hm] at this
            simp at this
            rw [this]; exact hl1
          have hm2 : s2.mapped = true := by
            have := map_dev_mapped_of_ok_true me s1 (by rw [hm])
            rw [hm] at this
            exact this
          rcases hn : mnt_dev ne s2 with ⟨b3, s3, t3⟩
          cases b3 with
          | false =>
            have h2 : (do_mount (attach_get_dev ae) me ne s).2.1 =
                (do_umount s3).1 := by
              rcases hu : do_umount s3 with ⟨s', t'⟩
              simp [do_mount, hg, hm, hn, hu]
            rw [h2]; exact do_umount_ord s3
          | true =>
            have h2 : (do_mount (attach_get_dev ae) me ne s).2.1 = s3 := by
              simp [do_mount, hg, hm, hn]
            have hl3 : s3.linked = true := by
              have := (mnt_dev_linked_mapped ne s2).1
              rw [hn] at this
              simp at this
              rw [this]; exact hl2
            have hm3 : s3.mapped = true := by
              have := (mnt_dev_linked_mapped ne s2).2
              rw [hn] at this
              simp at this
              rw [this]; exact hm2
            have ht3 : s3.mounted = true := by
              have := mnt_dev_mounted_of_true ne s2 (by rw [hn])
              rw [hn] at this
              exact this
            rw [h2]
            simp [flagsPrefixB, hl3, hm3, ht3]

/-- States reachable from construction by the composite operations
`do_mount` (with a backend attach) and `do_umount`. -/
inductive Reach : MountState → Prop where
  | init : ∀ image mount_dir p dev e s,
      NovaMount.init image mount_dir p dev e = Option.some s → Reach s
  | mount : ∀ ae me ne s, Reach s →
      Reach (do_mount (attach_get_dev ae) me ne s).2.1
  | umount : ∀ s, Reach s → Reach (do_umount s).1

/-! ## Claims -/

/-- C1: for every session and every failure injected at the attach
(`get_dev`, any implementation), partition-map (`map_dev`) or
filesystem-mount (`mnt_dev`) stage, when the composite `do_mount` returns
`False`, the full teardown `do_umount` has already run, and the three stage
flags `linked`, `mapped`, `mounted` are all false afterwards. -/
theorem do_mount_failure_rolls_back (gd : GetDev) (me : MapEnv)
    (ne : MntEnv) (s : MountState)
    (h : (do_mount gd me ne s).1 = OpOut.ok false) :
    (∃ mid, (do_mount gd me ne s).2.1 = (do_umount mid).1) ∧
    (do_mount gd me ne s).2.1.linked = false ∧
    (do_mount gd me ne s).2.1.mapped = false ∧
    (do_mount gd me ne s).2.1.mounted = false := by
  rcases do_mount_teardown gd me ne s with h1 | ⟨mid, hmid⟩
  · rw [h] at h1; exact absurd h1 (by simp)
  · refine ⟨⟨mid, hmid⟩, ?_⟩
    rw [hmid]
    exact ⟨(do_umount_flags mid).1, (do_umount_flags mid).2.1,
      (do_umount_flags mid).2.2⟩

/-- Witness for C1: a failing attach makes `do_mount` return `False` with
all stage flags false. -/
theorem do_mount_failure_rolls_back_w :
    (do_mount (attach_get_dev ⟨"", "boom"⟩) ⟨true, false, false, "", false⟩
      ⟨""⟩ fresh).1 = OpOut.ok false ∧
    ((∃ mid, (do_mount (attach_get_dev ⟨"", "boom"⟩)
        ⟨true, false, false, "", false⟩ ⟨""⟩ fresh).2.1 = (do_umount mid).1) ∧
     (do_mount (attach_get_dev ⟨"", "boom"⟩) ⟨true, false, false, "", false⟩
        ⟨""⟩ fresh).2.1.linked = false ∧
     (do_mount (attach_get_dev ⟨"", "boom"⟩) ⟨true, false, false, "", false⟩
        ⟨""⟩ fresh).2.1.mapped = false ∧
     (do_mount (attach_get_dev ⟨"", "boom"⟩) ⟨true, false, false, "", false⟩
        ⟨""⟩ fresh).2.1.mounted = false) :=
  ⟨by decide,
   do_mount_failure_rolls_back (attach_get_dev ⟨"", "boom"⟩)
     ⟨true, false, false, "", false⟩ ⟨""⟩ fresh (by decide)⟩

/-- C2: `do_umount` is idempotent — a second call leaves the state
unchanged and invokes no external command — and on a session constructed
without a device hint (never attached) `do_umount` changes nothing and
invokes no external command. -/
theorem do_umount_idempotent (s : MountState) (image mount_dir : String)
    (p : PartSel) (e : ResetEnv) :
    do_umount (do_umount s).1 = ((do_umount s).1, []) ∧
    (∀ s₀, init image mount_dir p Option.none e = Option.some s₀ →
       do_umount s₀ = (s₀, [])) := by
  refine ⟨do_umount_idem s, ?_⟩
  intro s₀ h
  simp only [init, reset_dev] at h
  cases h
  rw [do_umount_spec]
  simp

/-- Witness for C2: on the fresh session, `do_umount` is a no-op with an
empty command trace. -/
theorem do_umount_idempotent_w :
    do_umount fresh = (fresh, []) :=
  (do_umount_idempotent fresh "img" "dir" PartSel.none ⟨false⟩).2 fresh
    (by rfl)

/-- C9: if a stage of `do_mount` raises an exception, the `finally` clause
still runs the full teardown `do_umount` before the exception propagates,
so the stage flags are all false in the propagated state. -/
theorem do_mount_exc_rolls_back (gd : GetDev) (me : MapEnv) (ne : MntEnv)
    (s : MountState) (h : (do_mount gd me ne s).1 = OpOut.exc) :
    (∃ mid, (do_mount gd me ne s).2.1 = (do_umount mid).1) ∧
    (do_mount gd me ne s).2.1.linked = false ∧
    (do_mount gd me ne s).2.1.mapped = false ∧
    (do_mount gd me ne s).2.1.mounted = false := by
  rcases do_mount_teardown gd me ne s with h1 | ⟨mid, hmid⟩
  · rw [h] at h1; exact absurd h1 (by simp)
  · refine ⟨⟨mid, hmid⟩, ?_⟩
    rw [hmid]
    exact ⟨(do_umount_flags mid).1, (do_umount_flags mid).2.1,
      (do_umount_flags mid).2.2⟩

/-- A session ready for `map_dev` on partition 1 of `/dev/loop0`. -/
def mapReady : MountState :=
  { image := "i", partition := PartSel.int 1, mount_dir := "d", error := "",
    linked := true, mapped := false, mounted := false, automapped := false,
    device := Option.some "/dev/loop0",
    mapped_device := Option.some "/dev/loop0", mode := Option.none }

/-- A whole-device session (no partition selector) with a live mapping. -/
def wholeMapped : MountState :=
  { image := "i", partition := PartSel.none, mount_dir := "d", error := "",
    linked := true, mapped := true, mounted := false, automapped := false,
    device := Option.some "/dev/loop0",
    mapped_device := Option.some "/dev/loop0", mode := Option.none }

/-- A session carrying a failure description from an earlier stage. -/
def staleError : MountState :=
  { image := "i", partition := PartSel.none, mount_dir := "d",
    error := "previous failure", linked := true, mapped := false,
    mounted := false, automapped := false,
    device := Option.some "/dev/loop0",
    mapped_device := Option.some "/dev/loop0", mode := Option.none }

/-- C3: with a specific partition whose kernel auto-map node does not
pre-exist, `map_dev` is decided solely by whether the device-mapper node
exists after the `kpartx -a` invocation: whatever stderr the tool produced,
an absent node means failure with the partition-map error set, and a
present node means success — the stderr text `kpartxErr` is universally
quantified and never influences the returned boolean. -/
theorem map_dev_judged_by_node (e : MapEnv) (s : MountState) (d : String)
    (n : Int) (hd : s.device = Option.some d) (hm : s.mapped = false)
    (hp : s.partition = PartSel.int n) (hn : 0 < n)
    (hde : e.deviceExists = true) (ha : e.autoExists = false)
    (hb : e.mapExistsBefore = false) :
    (e.mapExistsAfter = false →
       (map_dev e s).1 = OpOut.ok false ∧
       (map_dev e s).2.1.mapped = false ∧
       (map_dev e s).2.1.error = "Failed to map partitions: " ++
         (if e.kpartxErr = "" then
            "partition " ++ toString n ++ " not found"
          else e.kpartxErr) ∧
       (map_dev e s).2.2 = [Cmd.kpartx_add d]) ∧
    (e.mapExistsAfter = true →
       (map_dev e s).1 = OpOut.ok true ∧
       (map_dev e s).2.1.mapped = true ∧
       (map_dev e s).2.1.mapped_device =
         Option.some ("/dev/mapper/" ++ basename d ++ "p" ++ toString n) ∧
       (map_dev e s).2.2 = [Cmd.kpartx_add d]) := by
  have h1 : ¬ (n = -1) := by omega
  have h2 : n ≠ 0 := by omega
  constructor
  · intro hafter
    simp [map_dev, hd, hde, hp, ha, hb, hafter, PartSel.truthy,
      PartSel.pstr, h1, h2, hm]
  · intro hafter
    simp [map_dev, hd, hde, hp, ha, hb, hafter, PartSel.truthy,
      PartSel.pstr, h1, h2]

/-- Witness for C3: `kpartx` emitted a warning but the node exists, so
`map_dev` succeeds. -/
theorem map_dev_judged_by_node_w :
    (map_dev ⟨true, false, false, "warn", true⟩ mapReady).1 =
      OpOut.ok true :=
  ((map_dev_judged_by_node ⟨true, false, false, "warn", true⟩ mapReady
      "/dev/loop0" 1 rfl rfl rfl (by decide) rfl rfl rfl).2 rfl).1

/-- C6: with a specific partition whose kernel auto-map node
`/dev/<base>p<N>` already exists, `map_dev` succeeds using that node as the
mapped device, sets `automapped`, and invokes no external command. -/
theorem map_dev_automap (e : MapEnv) (s : MountState) (d : String) (n : Int)
    (hd : s.device = Option.some d) (hde : e.deviceExists = true)
    (hp : s.partition = PartSel.int n) (hn : 0 < n)
    (ha : e.autoExists = true) :
    map_dev e s =
      (OpOut.ok true,
       { s with
           mapped_device :=
             Option.some ("/dev/" ++ basename d ++ "p" ++ toString n),
           mapped := true,
           automapped := true },
       []) := by
  have h1 : ¬ (n = -1) := by omega
  have h2 : n ≠ 0 := by omega
  simp [map_dev, hd, hde, hp, ha, PartSel.truthy, PartSel.pstr, h1, h2]

/-- Witness for C6: partition 1 of `/dev/loop0` auto-mapped at
`/dev/loop0p1`, no command invoked. -/
theorem map_dev_automap_w :
    map_dev ⟨true, true, false, "", false⟩ mapReady =
      (OpOut.ok true,
       { mapReady with
           mapped_device := Option.some "/dev/loop0p1",
           mapped := true,
           automapped := true },
       []) := by
  rw [map_dev_automap ⟨true, true, false, "", false⟩ mapReady "/dev/loop0" 1
    rfl rfl rfl (by decide) rfl]
  decide

/-- C10: the two asserted preconditions of `map_dev` — the raw device path
must exist, and with a specific partition whose auto-map node is absent the
device-mapper node must not pre-exist; violating either aborts with an
exception, leaving the state untouched, instead of returning a failure. -/
theorem map_dev_assert_preconditions (e : MapEnv) (s : MountState) :
    (∀ d, s.device = Option.some d → e.deviceExists = false →
       map_dev e s = (OpOut.exc, s, [])) ∧
    (∀ d n, s.device = Option.some d → e.deviceExists = true →
       s.partition = PartSel.int n → 0 < n → e.autoExists = false →
       e.mapExistsBefore = true →
       map_dev e s = (OpOut.exc, s, [])) := by
  constructor
  · intro d hd hde
    simp [map_dev, hd, hde]
  · intro d n hd hde hp hn ha hb
    have h1 : ¬ (n = -1) := by omega
    have h2 : n ≠ 0 := by omega
    simp [map_dev, hd, hde, hp, ha, hb, PartSel.truthy, h1, h2]

/-- Witness for C10: both assertion failures on concrete sessions. -/
theorem map_dev_assert_preconditions_w :
    map_dev ⟨false, false, false, "", false⟩ mapReady =
      (OpOut.exc, mapReady, []) ∧
    map_dev ⟨true, false, true, "", false⟩ mapReady =
      (OpOut.exc, mapReady, []) :=
  ⟨(map_dev_assert_preconditions ⟨false, false, false, "", false⟩
      mapReady).1 "/dev/loop0" rfl rfl,
   (map_dev_assert_preconditions ⟨true, false, true, "", false⟩
      mapReady).2 "/dev/loop0" 1 rfl rfl rfl (by decide) rfl rfl⟩

/-- C7 counterexample: a whole-device session (`partition = None`) with
`mapped = true` and `automapped = false` invokes NO unmapping command
during `unmap_dev`, contradicting "the partition-unmapping tool is invoked
... regardless of whether a partition selector was given". -/
theorem unmap_dev_skips_tool_cex :
    wholeMapped.mapped = true ∧ wholeMapped.automapped = false ∧
    (unmap_dev wholeMapped).2 = [] := by decide

/-- C7 amended: for a session with `mapped = true` and
`automapped = false`, `unmap_dev` invokes `kpartx -d` against the raw
device exactly when a partition selector was given (truthy `partition`),
and afterwards `mapped` and `automapped` are both false. -/
theorem unmap_dev_clears (s : MountState) (hm : s.mapped = true)
    (ha : s.automapped = false) :
    ((unmap_dev s).2 =
       if s.partition.truthy then
         [Cmd.kpartx_del (pyStrOpt s.device)]
       else []) ∧
    (unmap_dev s).1.mapped = false ∧
    (unmap_dev s).1.automapped = false := by
  simp [unmap_dev, hm, ha]

/-- Witness for C7 (amended) on the whole-device session. -/
theorem unmap_dev_clears_w :
    ((unmap_dev wholeMapped).2 =
       if wholeMapped.partition.truthy then
         [Cmd.kpartx_del (pyStrOpt wholeMapped.device)]
       else []) ∧
    (unmap_dev wholeMapped).1.mapped = false ∧
    (unmap_dev wholeMapped).1.automapped = false :=
  unmap_dev_clears wholeMapped rfl rfl

/-- C5 counterexample: the hint `"x"` is neither absolute nor existing,
yet construction still marks the session attached (and mapped and
mounted), contradicting "interpreted as reattachment only when the hint is
an absolute, existing path". -/
theorem init_hint_cex :
    isabs "x" = false ∧
    (init "img" "dir" PartSel.none (Option.some "x") ⟨false⟩).map
      (fun s => (s.linked, s.mapped, s.mounted)) =
      Option.some (true, true, true) := by decide

/-- Every construction with a non-empty device hint marks the session
linked, mapped and mounted. -/
theorem init_hint_flags_true (image mount_dir : String) (p : PartSel)
    (d : String) (e : ResetEnv) (s : MountState) (hd : d ≠ "")
    (h : init image mount_dir p (Option.some d) e = Option.some s) :
    s.linked = true ∧ s.mapped = true ∧ s.mounted = true := by
  simp only [init, reset_dev, if_neg hd] at h
  split_ifs at h
  · rcases hr : rsplitP (basename d) with _ | ⟨dv, pt⟩ <;> rw [hr] at h
    · exact absurd h (by simp)
    · cases Option.some.inj h
      exact ⟨rfl, rfl, rfl⟩
  · cases Option.some.inj h
    exact ⟨rfl, rfl, rfl⟩
  · cases Option.some.inj h
    exact ⟨rfl, rfl, rfl⟩

/-- C5 amended: constructing with ANY non-empty device hint marks the
session attached, mapped and mounted, regardless of the hint being
absolute or existing; the absolute-and-existing check only gates the
device-mapper inference, which on `/dev/mapper/loop0p1` (absolute,
existing) extracts base device `/dev/loop0` and partition `"1"`. -/
theorem init_hint_reattach (image mount_dir : String) (p : PartSel)
    (d : String) (e : ResetEnv) :
    (∀ s, d ≠ "" → init image mount_dir p (Option.some d) e =
         Option.some s →
       s.linked = true ∧ s.mapped = true ∧ s.mounted = true) ∧
    (init "img" "dir" PartSel.none (Option.some "/dev/mapper/loop0p1")
        ⟨true⟩).map (fun s =>
        (s.device, s.partition, s.linked, s.mapped, s.mounted)) =
      Option.some (Option.some "/dev/loop0", PartSel.str "1", true, true,
        true) := by
  refine ⟨fun s hd h => init_hint_flags_true image mount_dir p d e s hd h,
    ?_⟩
  decide

/-- The session produced by constructing with the hint `/x`. -/
def hintState : MountState :=
  { image := "i2", partition := PartSel.none, mount_dir := "d2",
    error := "", linked := true, mapped := true, mounted := true,
    automapped := false, device := Option.some "/x",
    mapped_device := Option.some "/x", mode := Option.none }

/-- Witness for C5 (amended) on the hint `/x`. -/
theorem init_hint_reattach_w :
    hintState.linked = true ∧ hintState.mapped = true ∧
    hintState.mounted = true :=
  (init_hint_reattach "i2" "d2" PartSel.none "/x" ⟨true⟩).1 hintState
    (by decide) (by decide)

/-- C8 counterexample: a successful `map_dev` stage attempt neither clears
the stale `error` at its start nor on success — the claim's "cleared at
the start of every stage attempt" fails. -/
theorem error_cleared_cex :
    (map_dev ⟨true, false, false, "", false⟩ staleError).1 =
      OpOut.ok true ∧
    (map_dev ⟨true, false, false, "", false⟩ staleError).2.1.error =
      "previous failure" := by decide

/-- C8 amended: `error` is set to `""` only at construction; a stage
attempt never clears it (a non-empty error survives both `map_dev` and
`mnt_dev`, whatever their outcome), and a failing `mnt_dev` overwrites it
with the description of the most recent failure. -/
theorem error_never_cleared (me : MapEnv) (ne : MntEnv) (s : MountState)
    (h : s.error ≠ "") :
    (map_dev me s).2.1.error ≠ "" ∧
    (mnt_dev ne s).2.1.error ≠ "" ∧
    (ne.mountErr ≠ "" →
       (mnt_dev ne s).2.1.error =
         "Failed to mount filesystem: " ++ ne.mountErr) := by
  refine ⟨?_, ?_, ?_⟩
  · rcases map_dev_error_cases me s with hc | hc | ⟨m, hc⟩ <;> rw [hc]
    · exact h
    · exact str_append_ne_empty _ _ (by decide)
    · exact str_append_ne_empty _ _ (by decide)
  · by_cases hm : ne.mountErr = ""
    · simpa [mnt_dev, hm] using h
    · simp only [mnt_dev, hm]
      simp [hm]
      exact str_append_ne_empty _ _ (by decide)
  · intro hm
    simp [mnt_dev, hm]

/-- Witness for C8 (amended) on the stale-error session. -/
theorem error_never_cleared_w :
    (map_dev ⟨true, false, false, "", false⟩ staleError).2.1.error ≠ "" ∧
    (mnt_dev ⟨"boom"⟩ staleError).2.1.error ≠ "" ∧
    (("boom" : String) ≠ "" →
       (mnt_dev ⟨"boom"⟩ staleError).2.1.error =
         "Failed to mount filesystem: " ++ "boom") :=
  error_never_cleared ⟨true, false, false, "", false⟩ ⟨"boom"⟩ staleError
    (by decide)

/-- C4 counterexample: constructing with the hint `/x` (all flags true)
and then calling `unget_dev` yields `mapped = true` with
`linked = false`, so the strict-prefix flag invariant fails under the
claim's full operation set. -/
theorem flags_order_cex :
    (init "img" "dir" PartSel.none (Option.some "/x") ⟨true⟩).map
      (fun s => flagsPrefixB (unget_dev s)) = Option.some false := by
  decide

/-- C4 amended: after every sequence of construction, `do_mount` (with a
backend attach) and `do_umount`, the stage flags form a strict prefix —
`mounted` only if `mapped`, and `mapped` only if `linked`.  (The
individual un-operations, reachable only by calling them out of order,
can break it, as the counterexample shows.) -/
theorem flags_order_reachable (s : MountState) (h : Reach s) :
    flagsPrefixB s = true := by
  induction h with
  | init image mount_dir p dev e s h =>
    exact init_ord image mount_dir p dev e s h
  | mount ae me ne s hs ih => exact do_mount_attach_ord ae me ne s
  | umount s hs ih => exact do_umount_ord s

/-- Witness for C4 (amended): the fresh session is reachable and satisfies
the prefix invariant. -/
theorem flags_order_reachable_w : flagsPrefixB fresh = true :=
  flags_order_reachable fresh
    (Reach.init "img" "dir" PartSel.none Option.none ⟨false⟩ fresh rfl)

/-- Witness for C9: the base-class `get_dev` sets `device = None`, so the
subsequent `map_dev` raises; the propagated state is fully torn down. -/
theorem do_mount_exc_rolls_back_w :
    (do_mount get_dev ⟨true, false, false, "", false⟩ ⟨""⟩ fresh).1 =
      OpOut.exc ∧
    ((∃ mid, (do_mount get_dev ⟨true, false, false, "", false⟩ ⟨""⟩
        fresh).2.1 = (do_umount mid).1) ∧
     (do_mount get_dev ⟨true, false, false, "", false⟩ ⟨""⟩
        fresh).2.1.linked = false ∧
     (do_mount get_dev ⟨true, false, false, "", false⟩ ⟨""⟩
        fresh).2.1.mapped = false ∧
     (do_mount get_dev ⟨true, false, false, "", false⟩ ⟨""⟩
        fresh).2.1.mounted = false) :=
  ⟨by decide,
   do_mount_exc_rolls_back get_dev ⟨true, false, false, "", false⟩ ⟨""⟩
     fresh (by decide)⟩

end NovaMount
